import Mathlib

/-!
Verification of the issue-creation engine of `release-process-o-tron`
(`src/relprocotron/__main__.py`) against its natural-language specification.

The Python source is shallowly embedded:
* the task-document data model (§6 of the spec, consumed by
  `_create_github_issues`) becomes Lean structures;
* Python's built-in stable `sorted(…, key=…)` becomes `pySorted`, a stable
  insertion sort by an integer key;
* `GitHubClient._make_request` becomes `makeRequest`, a pure retry loop over
  an oracle giving the outcome of each HTTP attempt;
* the orchestrator (`_create_github_issues` / `_create_issue_from_task`)
  becomes a state-passing function that records every externally visible
  action (client construction, label listing, issue creation, issue update,
  dry-run previews) in an event trace, with the tracker's responses given by
  an environment `TrackerEnv` (each `create_issue` call's final outcome after
  the client's internal retries, and each `update_issue` call's outcome).

The label-validation step (`_collect_all_tags`, `_validate_repository_labels`,
`GitHubClient.list_labels`) is referenced by the repository's tests but its
definition is absent from the sources provided; those definitions are modelled
from the spec and marked as such in their doc comments.
-/

namespace RelProcOTron

/-! ## Data model (spec §6 Task Document schema; `dict` fields used by the code) -/

/-- A task as consumed by `_create_issue_from_task`: `title`, `category`,
`description` (list of lines), `tags`, and an optional `priority`
(`"priority" in task` / `task.get("priority", 999)` in the code). -/
structure TaskData where
  title : String
  category : String
  description : List String
  tags : List String
  priority : Option Int
deriving Repr, DecidableEq

/-- A top-level task: a task plus the optional `"children"` key
(`if "children" in task` in `_create_github_issues`). -/
structure TopTask extends TaskData where
  children : Option (List TaskData)
deriving Repr, DecidableEq

/-- The Task Document: `data["release"]["name"]` and `data["tasks"]`. -/
structure TaskDoc where
  releaseName : String
  tasks : List TopTask
deriving Repr, DecidableEq

/-- The part of a created issue's record that the orchestrator reads back:
`issue["number"]` and `parent_issue["body"]`.  The tracker echoes the body
that was sent at creation. -/
structure Issue where
  number : Nat
  body : String
deriving Repr, DecidableEq

/-- Sort key used by both `sorted(...)` calls:
`lambda x: x.get("priority", 999)`. -/
def taskKey (t : TaskData) : Int :=
  t.priority.getD 999

/-- Sort key for top-level tasks (same `x.get("priority", 999)`). -/
def topKey (t : TopTask) : Int :=
  taskKey t.toTaskData

/-! ## Python's stable `sorted` (ascending by integer key) -/

/-- Insert `a` into `l` before the first element whose key is `≥ key a`.
Together with `pySorted` this is a stable ascending sort by `key`, the
documented contract of Python's built-in `sorted(…, key=…)`. -/
def insertByKey (key : α → Int) (a : α) : List α → List α
  | [] => [a]
  | b :: bs => if key a ≤ key b then a :: b :: bs else b :: insertByKey key a bs

/-- Model of Python's built-in `sorted(l, key=key)`: stable ascending sort. -/
def pySorted (key : α → Int) : List α → List α
  | [] => []
  | a :: as => insertByKey key a (pySorted key as)

theorem insertByKey_perm (key : α → Int) (a : α) (l : List α) :
    (insertByKey key a l).Perm (a :: l) := by
  induction l with
  | nil => simp [insertByKey]
  | cons b bs ih =>
    by_cases h : key a ≤ key b
    · simp [insertByKey, h]
    · simp only [insertByKey, if_neg h]
      exact ((ih.cons b).trans (List.Perm.swap a b bs))

theorem pySorted_perm (key : α → Int) (l : List α) :
    (pySorted key l).Perm l := by
  induction l with
  | nil => simp [pySorted]
  | cons a as ih =>
    exact (insertByKey_perm key a (pySorted key as)).trans (ih.cons a)

theorem mem_pySorted (key : α → Int) (l : List α) (a : α) :
    a ∈ pySorted key l ↔ a ∈ l :=
  (pySorted_perm key l).mem_iff

theorem insertByKey_pairwise (key : α → Int) (a : α) (l : List α)
    (h : l.Pairwise (fun x y => key x ≤ key y)) :
    (insertByKey key a l).Pairwise (fun x y => key x ≤ key y) := by
  induction l with
  | nil => simp [insertByKey]
  | cons b bs ih =>
    rcases List.pairwise_cons.mp h with ⟨hb, hbs⟩
    by_cases hab : key a ≤ key b
    · simp only [insertByKey, if_pos hab]
      refine List.pairwise_cons.mpr ⟨?_, h⟩
      intro y hy
      rw [List.mem_cons] at hy
      rcases hy with rfl | hy
      · exact hab
      · exact le_trans hab (hb y hy)
    · simp only [insertByKey, if_neg hab]
      refine List.pairwise_cons.mpr ⟨?_, ih hbs⟩
      intro y hy
      rw [(insertByKey_perm key a bs).mem_iff, List.mem_cons] at hy
      rcases hy with rfl | hy
      · exact le_of_lt (lt_of_not_le hab)
      · exact hb y hy

theorem pySorted_pairwise (key : α → Int) (l : List α) :
    (pySorted key l).Pairwise (fun x y => key x ≤ key y) := by
  induction l with
  | nil => simp [pySorted]
  | cons a as ih => exact insertByKey_pairwise key a (pySorted key as) ih

theorem insertByKey_filter_key (key : α → Int) (a : α) (l : List α) (v : Int) :
    (insertByKey key a l).filter (fun x => decide (key x = v)) =
      (a :: l).filter (fun x => decide (key x = v)) := by
  induction l with
  | nil => rfl
  | cons b bs ih =>
    by_cases hab : key a ≤ key b
    · simp [insertByKey, hab]
    · have hba : key b < key a := lt_of_not_le hab
      simp only [insertByKey, if_neg hab]
      by_cases hav : key a = v
      · have hbv : ¬ key b = v := by
          intro hb; exact absurd (hb.trans hav.symm) (ne_of_lt hba)
        simp only [List.filter_cons, hav, hbv, decide_eq_true_eq, decide_True,
          if_pos, if_neg, decide_False] at ih ⊢
        simp only [ih]
        simp [List.filter_cons, hav, hbv]
      · simp only [List.filter_cons]
        by_cases hbv : key b = v
        · simp only [hbv, decide_True, if_pos] at ih ⊢
          simp only [ih]
          simp [List.filter_cons, hav]
        · simp only [hav, hbv, decide_False, if_neg] at ih ⊢
          simp only [ih]
          simp [List.filter_cons, hav]

theorem pySorted_filter_key (key : α → Int) (l : List α) (v : Int) :
    (pySorted key l).filter (fun x => decide (key x = v)) =
      l.filter (fun x => decide (key x = v)) := by
  induction l with
  | nil => rfl
  | cons a as ih =>
    rw [pySorted, insertByKey_filter_key]
    simp only [List.filter_cons]
    by_cases hav : key a = v
    · simp [hav, ih]
    · simp [hav, ih]

/-! ## Issue body construction (`_create_issue_from_task`, lines 417-431) -/

/-- The `description_lines` list built by `_create_issue_from_task`:
category header, blank line, the task's description lines (appended only when
the description list is truthy, i.e. non-empty), then `"", "**Priority:** p"`
when the task has a priority, then `"", "**Parent Issue:** #n"` when a parent
issue record was passed in. -/
def buildBodyLines (t : TaskData) (parentNumber : Option Nat) : List String :=
  let ls := ["**Category:** " ++ t.category, ""]
  let ls := if t.description = [] then ls else ls ++ t.description
  let ls := match t.priority with
    | some p => ls ++ ["", "**Priority:** " ++ toString p]
    | none => ls
  match parentNumber with
  | some n => ls ++ ["", "**Parent Issue:** #" ++ toString n]
  | none => ls

/-- `body = "\n".join(description_lines)`. -/
def buildBody (t : TaskData) (parentNumber : Option Nat) : String :=
  String.intercalate "\n" (buildBodyLines t parentNumber)

/-! ## `GitHubClient._make_request` (lines 231-301): retry loop model

Each HTTP attempt's outcome is given by an oracle `Nat → AttemptResult`
(attempt number ↦ what the network returned). The loop returns the list of
sleep durations performed (in order) together with either the successful
response's payload or the error that escaped the loop. -/

/-- Outcome of one HTTP attempt: a response with a status code, an optional
`Retry-After` header value, and a payload (abstracting the JSON body), or a
connection-level failure (`requests` `Timeout` / `ConnectionError`). -/
inductive AttemptResult where
  | status (code : Nat) (retryAfter : Option Nat) (payload : Nat)
  | connError
deriving Repr, DecidableEq

/-- The failure that escapes `_make_request`: an `HTTPError` carrying the
status that `raise_for_status` raised (re-raised once retries are spent),
a connection-level error re-raised once retries are spent, or the
`RequestException` raised on line 301 after falling off the loop. -/
inductive ReqError where
  | httpError (code : Nat)
  | connError
  | exhausted
deriving Repr, DecidableEq

/-- The `for attempt in range(max_retries + 1)` loop of `_make_request`.
`remaining` counts loop iterations still to run (`maxRetries + 1 - attempt`);
`sleeps` accumulates the `time.sleep` durations performed so far.

Branches, mirroring the source line by line:
* status 429 with `attempt < max_retries`: sleep `Retry-After` if given, else
  `base_delay * 2 ** attempt`, and continue;
* status 429 on the final attempt: falls through to `raise_for_status`, whose
  `HTTPError` is caught by the generic `RequestException` handler and
  re-raised (no retries left);
* status 200/201: return the parsed payload;
* any other status ≥ 400: `raise_for_status` raises `HTTPError`, which the
  generic `except RequestException` handler catches — retried with
  `base_delay * 2 ** attempt` backoff while attempts remain, re-raised after;
* any other status < 400: the `try` body completes without returning, so the
  loop silently moves to the next attempt (no sleep);
* connection-level failure: retried with exponential backoff while attempts
  remain, re-raised after. -/
def makeRequestLoop (outcomes : Nat → AttemptResult) (maxRetries baseDelay : Nat) :
    Nat → Nat → List Nat → List Nat × Except ReqError Nat
  | _, 0, sleeps => (sleeps, .error .exhausted)
  | attempt, remaining + 1, sleeps =>
    match outcomes attempt with
    | .status code retryAfter payload =>
      if code = 429 then
        if attempt < maxRetries then
          makeRequestLoop outcomes maxRetries baseDelay (attempt + 1) remaining
            (sleeps ++ [retryAfter.getD (baseDelay * 2 ^ attempt)])
        else
          (sleeps, .error (.httpError 429))
      else if code = 200 ∨ code = 201 then
        (sleeps, .ok payload)
      else if 400 ≤ code then
        if attempt < maxRetries then
          makeRequestLoop outcomes maxRetries baseDelay (attempt + 1) remaining
            (sleeps ++ [baseDelay * 2 ^ attempt])
        else
          (sleeps, .error (.httpError code))
      else
        makeRequestLoop outcomes maxRetries baseDelay (attempt + 1) remaining sleeps
    | .connError =>
      if attempt < maxRetries then
        makeRequestLoop outcomes maxRetries baseDelay (attempt + 1) remaining
          (sleeps ++ [baseDelay * 2 ^ attempt])
      else
        (sleeps, .error .connError)

/-- `_make_request` with its retry loop; defaults in the source are
`max_retries = 3`, `base_delay = 1.0`. -/
def makeRequest (outcomes : Nat → AttemptResult) (maxRetries baseDelay : Nat) :
    List Nat × Except ReqError Nat :=
  makeRequestLoop outcomes maxRetries baseDelay 0 (maxRetries + 1) []

/-! ## Orchestrator model (`_create_github_issues`, `_create_issue_from_task`) -/

/-- Externally visible actions of one run, in order:
construction of the `GitHubClient` (non-dry-run only), the one label-listing
call of the validation gate, a dry-run preview print for a task, a
`create_issue` call (with the payload sent and the final outcome after the
client's internal retries: `some number` on success, `none` on failure), and
an `update_issue` call (with the body sent and whether it succeeded). -/
inductive Event where
  | clientInit
  | listLabels
  | preview (title : String)
  | createIssue (title body : String) (labels : List String) (result : Option Nat)
  | updateIssue (number : Nat) (body : String) (ok : Bool)
deriving Repr, DecidableEq

/-- The tracker's behaviour for a run: its existing label names, the final
outcome of the k-th `create_issue` call (`some number` = created, `none` =
failed after the client's internal retries), and whether the k-th
`update_issue` call succeeds. -/
structure TrackerEnv where
  labelNames : List String
  createResult : Nat → Option Nat
  updateOk : Nat → Bool

/-- Mutable state threaded through the orchestrator: how many `create_issue`
and `update_issue` calls were made so far, the `total_created` counter, and
the trace of events so far. -/
structure RunState where
  createIdx : Nat
  updateIdx : Nat
  total : Nat
  trace : List Event
deriving Repr

/-- Errors that abort a run: a missing or malformed input document
(`DocumentError` in the spec's taxonomy), or the validation gate's
`ValidationError`, carrying the missing tags and the link to the tracker's
label-management page for the target repository. -/
inductive RunError where
  | documentError
  | validationError (missingTags : List String) (labelUrl : String)
deriving Repr, DecidableEq

/-- A run's observable result: the full event trace and either the count of
issues actually created (the final success message's number) or the fatal
error that aborted the run. -/
structure RunResult where
  trace : List Event
  outcome : Except RunError Nat
deriving Repr

/-- Modelled from the spec: `_collect_all_tags` is referenced by the
repository's tests but absent from the sources provided.  Spec §4.2 step 3:
"collect the set of all distinct `tags` across every task and child task in
the document". -/
def collectAllTags (doc : TaskDoc) : List String :=
  (doc.tasks.flatMap fun t => t.tags ++ (t.children.getD []).flatMap (·.tags)).dedup

/-- Modelled from the spec: the "link to the tracker's label-management page
for the target repository" named in the `ValidationError` remediation
(the tests expect `https://github.com/<repo>/labels`). -/
def labelManagementUrl (repo : String) : String :=
  "https://github.com/" ++ repo ++ "/labels"

/-- Modelled from the spec: the `missing = required_tags − existing_label_names`
set computed by `_validate_repository_labels`, which is referenced by the
repository's tests but absent from the sources provided. -/
def missingLabels (env : TrackerEnv) (doc : TaskDoc) : List String :=
  (collectAllTags doc).filter fun s => decide (s ∉ env.labelNames)

/-- `_create_issue_from_task` (lines 409-452): builds the body (with a parent
back-reference when a parent issue record is passed), then either prints a
preview and returns `None` (dry run) or performs one `create_issue` call,
returning the created issue's record on success and `None` on failure. -/
def createIssueFromTask (env : TrackerEnv) (st : RunState) (t : TaskData)
    (parent : Option Issue) (dryRun : Bool) : RunState × Option Issue :=
  let body := buildBody t (parent.map (·.number))
  if dryRun then
    ({ st with trace := st.trace ++ [.preview t.title] }, none)
  else
    match env.createResult st.createIdx with
    | some n =>
      ({ st with
          createIdx := st.createIdx + 1,
          trace := st.trace ++ [.createIssue t.title body t.tags (some n)] },
        some ⟨n, body⟩)
    | none =>
      ({ st with
          createIdx := st.createIdx + 1,
          trace := st.trace ++ [.createIssue t.title body t.tags none] },
        none)

/-- The inner `for child_task in child_tasks` loop of `_create_github_issues`
(lines 389-394): create each child issue, and for each success bump
`total_created` and append a `- [ ] #<number> <title>` line to
`child_task_list`.  Returns the final state and `child_task_list`. -/
def processChildren (env : TrackerEnv) (dryRun : Bool) (parent : Option Issue) :
    List TaskData → RunState → RunState × List String
  | [], st => (st, [])
  | c :: cs, st =>
    let r := createIssueFromTask env st c parent dryRun
    match r.2 with
    | some issue =>
      let st1 := { r.1 with total := r.1.total + 1 }
      let rest := processChildren env dryRun parent cs st1
      (rest.1, ("- [ ] #" ++ toString issue.number ++ " " ++ c.title) :: rest.2)
    | none => processChildren env dryRun parent cs r.1

/-- One iteration of the `for task in tasks` loop of `_create_github_issues`
(lines 378-404): create the top-level task's issue (bumping `total_created`
on success), then — when a `children` key is present — create the children
sorted by priority, and when the parent was created, at least one child line
was collected, and the run is not a dry run, issue one `update_issue` call
patching the parent's body with the sub-task checklist (its failure only
logs a warning). -/
def processTask (env : TrackerEnv) (dryRun : Bool) (st : RunState) (t : TopTask) :
    RunState :=
  let r := createIssueFromTask env st t.toTaskData none dryRun
  let st1 := match r.2 with
    | some _ => { r.1 with total := r.1.total + 1 }
    | none => r.1
  match t.children with
  | none => st1
  | some children =>
    let rc := processChildren env dryRun r.2 (pySorted taskKey children) st1
    match r.2, rc.2, dryRun with
    | some pi, l :: ls, false =>
      let updatedBody :=
        pi.body ++ "\n\n**Sub-tasks:**\n" ++ String.intercalate "\n" (l :: ls)
      { rc.1 with
          updateIdx := rc.1.updateIdx + 1,
          trace := rc.1.trace ++
            [.updateIssue pi.number updatedBody (env.updateOk rc.1.updateIdx)] }
    | _, _, _ => rc.1

/-- The outer `for task in tasks` loop over the priority-sorted top-level
tasks. -/
def runTasks (env : TrackerEnv) (dryRun : Bool) : List TopTask → RunState → RunState
  | [], st => st
  | t :: ts, st => runTasks env dryRun ts (processTask env dryRun st t)

/-- `_create_github_issues` (lines 347-406): fail with a document error when
the source is missing or malformed (`none`); in a dry run, make no tracker
connection and run the loop in preview mode; otherwise construct the client,
run the spec-modelled label-validation gate (one label-listing call, then
fail with `ValidationError` when any required tag is missing), and then run
the creation loop over the priority-sorted tasks.  The outcome on the success
path is `total_created`, the number reported by the final message. -/
def runCreateIssues (env : TrackerEnv) (repo : String) (source : Option TaskDoc)
    (dryRun : Bool) : RunResult :=
  match source with
  | none => ⟨[], .error .documentError⟩
  | some doc =>
    if dryRun then
      let st := runTasks env true (pySorted topKey doc.tasks) ⟨0, 0, 0, []⟩
      ⟨st.trace, .ok st.total⟩
    else
      let missing := missingLabels env doc
      if missing = [] then
        let st := runTasks env false (pySorted topKey doc.tasks)
          ⟨0, 0, 0, [.clientInit, .listLabels]⟩
        ⟨st.trace, .ok st.total⟩
      else
        ⟨[.clientInit, .listLabels],
          .error (.validationError missing (labelManagementUrl repo))⟩

/-! ## Trace observations -/

/-- Is this event a `create_issue` call? -/
def Event.isCreate : Event → Bool
  | .createIssue _ _ _ _ => true
  | _ => false

/-- Is this event a successful `create_issue` call? -/
def Event.isCreateSuccess : Event → Bool
  | .createIssue _ _ _ (some _) => true
  | _ => false

/-- Is this event an `update_issue` call? -/
def Event.isUpdate : Event → Bool
  | .updateIssue _ _ _ => true
  | _ => false

/-- Is this event a dry-run preview print? -/
def Event.isPreview : Event → Bool
  | .preview _ => true
  | _ => false

/-- Is this event a tracker call (label listing, creation, or update)? -/
def Event.isTrackerCall : Event → Bool
  | .listLabels => true
  | .createIssue _ _ _ _ => true
  | .updateIssue _ _ _ => true
  | _ => false

/-- Number of `create_issue` calls in a trace. -/
def countCreate (tr : List Event) : Nat := tr.countP Event.isCreate

/-- Number of successful `create_issue` calls in a trace. -/
def countCreateSuccess (tr : List Event) : Nat := tr.countP Event.isCreateSuccess

/-- Number of `update_issue` calls in a trace. -/
def countUpdate (tr : List Event) : Nat := tr.countP Event.isUpdate

/-- Total number of tasks (top-level tasks plus all children) in a document. -/
def taskCount (doc : TaskDoc) : Nat :=
  doc.tasks.length + (doc.tasks.map fun t => (t.children.getD []).length).sum

/-! ## Closed-form characterizations of the loops -/

/-- Closed form of the `create_issue` events emitted for a child list starting
at call index `idx`, with parent back-reference `pn`. -/
def childEvents (env : TrackerEnv) (pn : Option Nat) : Nat → List TaskData → List Event
  | _, [] => []
  | idx, c :: cs =>
    .createIssue c.title (buildBody c pn) c.tags (env.createResult idx)
      :: childEvents env pn (idx + 1) cs

/-- Closed form of `child_task_list`: one checklist line per successfully
created child, in creation order. -/
def childLines (env : TrackerEnv) : Nat → List TaskData → List String
  | _, [] => []
  | idx, c :: cs =>
    match env.createResult idx with
    | some n => ("- [ ] #" ++ toString n ++ " " ++ c.title) :: childLines env (idx + 1) cs
    | none => childLines env (idx + 1) cs

/-- Closed form of the number of successfully created children. -/
def childSuccessCount (env : TrackerEnv) : Nat → List TaskData → Nat
  | _, [] => 0
  | idx, _ :: cs =>
    match env.createResult idx with
    | some _ => childSuccessCount env (idx + 1) cs + 1
    | none => childSuccessCount env (idx + 1) cs

theorem processChildren_spec (env : TrackerEnv) (parent : Option Issue)
    (cs : List TaskData) : ∀ st : RunState,
    processChildren env false parent cs st =
      (⟨st.createIdx + cs.length, st.updateIdx,
        st.total + childSuccessCount env st.createIdx cs,
        st.trace ++ childEvents env (parent.map (·.number)) st.createIdx cs⟩,
       childLines env st.createIdx cs) := by
  induction cs with
  | nil =>
    intro st
    simp [processChildren, childEvents, childLines, childSuccessCount]
  | cons c cs ih =>
    intro st
    simp only [processChildren, createIssueFromTask, Bool.false_eq_true, if_false]
    cases h : env.createResult st.createIdx with
    | some n =>
      simp only [ih]
      simp [childEvents, childLines, childSuccessCount, h]
      omega
    | none =>
      simp only [ih]
      simp [childEvents, childLines, childSuccessCount, h]
      omega

theorem processChildren_dry (env : TrackerEnv) (parent : Option Issue)
    (cs : List TaskData) : ∀ st : RunState,
    processChildren env true parent cs st =
      ({ st with trace := st.trace ++ cs.map fun c => Event.preview c.title }, []) := by
  induction cs with
  | nil => intro st; simp [processChildren]
  | cons c cs ih =>
    intro st
    simp only [processChildren, createIssueFromTask, if_true]
    simp [ih]

theorem countCreate_childEvents (env : TrackerEnv) (pn : Option Nat)
    (cs : List TaskData) : ∀ idx,
    (childEvents env pn idx cs).countP Event.isCreate = cs.length := by
  induction cs with
  | nil => intro idx; simp [childEvents]
  | cons c cs ih =>
    intro idx
    simp [childEvents, List.countP_cons, Event.isCreate, ih]

theorem countSuccess_childEvents (env : TrackerEnv) (pn : Option Nat)
    (cs : List TaskData) : ∀ idx,
    (childEvents env pn idx cs).countP Event.isCreateSuccess =
      childSuccessCount env idx cs := by
  induction cs with
  | nil => intro idx; simp [childEvents, childSuccessCount]
  | cons c cs ih =>
    intro idx
    cases h : env.createResult idx with
    | some n =>
      simp [childEvents, childSuccessCount, List.countP_cons, Event.isCreateSuccess, h, ih]
    | none =>
      simp [childEvents, childSuccessCount, List.countP_cons, Event.isCreateSuccess, h, ih]

theorem countUpdate_childEvents (env : TrackerEnv) (pn : Option Nat)
    (cs : List TaskData) : ∀ idx,
    (childEvents env pn idx cs).countP Event.isUpdate = 0 := by
  induction cs with
  | nil => intro idx; simp [childEvents]
  | cons c cs ih =>
    intro idx
    simp [childEvents, List.countP_cons, Event.isUpdate, ih]

theorem childLines_length (env : TrackerEnv) (cs : List TaskData) : ∀ idx,
    (childLines env idx cs).length = childSuccessCount env idx cs := by
  induction cs with
  | nil => intro idx; simp [childLines, childSuccessCount]
  | cons c cs ih =>
    intro idx
    cases h : env.createResult idx with
    | some n => simp [childLines, childSuccessCount, h, ih]
    | none => simp [childLines, childSuccessCount, h, ih]

theorem childLines_mem (env : TrackerEnv) (pn : Option Nat) (cs : List TaskData) :
    ∀ idx, ∀ l ∈ childLines env idx cs, ∃ c m,
      Event.createIssue c.title (buildBody c pn) c.tags (some m)
          ∈ childEvents env pn idx cs ∧
      l = "- [ ] #" ++ toString m ++ " " ++ c.title := by
  induction cs with
  | nil => intro idx l hl; simp [childLines] at hl
  | cons c cs ih =>
    intro idx l hl
    cases h : env.createResult idx with
    | some n =>
      rw [childLines, h] at hl
      rcases List.mem_cons.mp hl with rfl | hl
      · exact ⟨c, n, by simp [childEvents, h], rfl⟩
      · rcases ih (idx + 1) l hl with ⟨c', m, hmem, rfl⟩
        exact ⟨c', m, by simp [childEvents, hmem], rfl⟩
    | none =>
      rw [childLines, h] at hl
      rcases ih (idx + 1) l hl with ⟨c', m, hmem, rfl⟩
      exact ⟨c', m, by simp [childEvents, hmem], rfl⟩

theorem processTask_dry (env : TrackerEnv) (st : RunState) (t : TopTask) :
    processTask env true st t =
      { st with trace := st.trace ++ Event.preview t.title ::
          (pySorted taskKey (t.children.getD [])).map fun c => Event.preview c.title } := by
  cases hch : t.children with
  | none =>
    simp [processTask, createIssueFromTask, hch, pySorted]
  | some cs =>
    simp [processTask, createIssueFromTask, hch, processChildren_dry]

theorem processTask_counts (env : TrackerEnv) (st : RunState) (t : TopTask) :
    ∃ d, (processTask env false st t).trace = st.trace ++ d ∧
      d.countP Event.isCreate = 1 + (t.children.getD []).length ∧
      (processTask env false st t).total = st.total + d.countP Event.isCreateSuccess := by
  cases hch : t.children with
  | none =>
    cases hpc : env.createResult st.createIdx with
    | some n =>
      refine ⟨[.createIssue t.title (buildBody t.toTaskData none) t.tags (some n)], ?_⟩
      simp [processTask, createIssueFromTask, hch, hpc, List.countP_cons,
        Event.isCreate, Event.isCreateSuccess]
    | none =>
      refine ⟨[.createIssue t.title (buildBody t.toTaskData none) t.tags none], ?_⟩
      simp [processTask, createIssueFromTask, hch, hpc, List.countP_cons,
        Event.isCreate, Event.isCreateSuccess]
  | some cs =>
    have hlen : (pySorted taskKey cs).length = cs.length :=
      (pySorted_perm taskKey cs).length_eq
    cases hpc : env.createResult st.createIdx with
    | some n =>
      cases hcl : childLines env (st.createIdx + 1) (pySorted taskKey cs) with
      | nil =>
        refine ⟨.createIssue t.title (buildBody t.toTaskData none) t.tags (some n) ::
          childEvents env (some n) (st.createIdx + 1) (pySorted taskKey cs), ?_⟩
        simp [processTask, createIssueFromTask, hch, hpc, processChildren_spec, hcl,
          List.countP_cons, Event.isCreate, Event.isCreateSuccess,
          countCreate_childEvents, countSuccess_childEvents, hlen]
        omega
      | cons l ls =>
        refine ⟨.createIssue t.title (buildBody t.toTaskData none) t.tags (some n) ::
          childEvents env (some n) (st.createIdx + 1) (pySorted taskKey cs) ++
          [.updateIssue n (buildBody t.toTaskData none ++ "\n\n**Sub-tasks:**\n" ++
            String.intercalate "\n" (l :: ls)) (env.updateOk st.updateIdx)], ?_⟩
        simp [processTask, createIssueFromTask, hch, hpc, processChildren_spec, hcl,
          List.countP_cons, List.countP_append, Event.isCreate, Event.isCreateSuccess,
          countCreate_childEvents, countSuccess_childEvents, hlen]
        omega
    | none =>
      refine ⟨.createIssue t.title (buildBody t.toTaskData none) t.tags none ::
        childEvents env none (st.createIdx + 1) (pySorted taskKey cs), ?_⟩
      simp [processTask, createIssueFromTask, hch, hpc, processChildren_spec,
        List.countP_cons, Event.isCreate, Event.isCreateSuccess,
        countCreate_childEvents, countSuccess_childEvents, hlen]
      omega

theorem runTasks_counts (env : TrackerEnv) (ts : List TopTask) : ∀ st : RunState,
    ∃ d, (runTasks env false ts st).trace = st.trace ++ d ∧
      d.countP Event.isCreate = (ts.map fun t => 1 + (t.children.getD []).length).sum ∧
      (runTasks env false ts st).total = st.total + d.countP Event.isCreateSuccess := by
  induction ts with
  | nil => intro st; exact ⟨[], by simp [runTasks]⟩
  | cons t ts ih =>
    intro st
    obtain ⟨d1, h1, h2, h3⟩ := processTask_counts env st t
    obtain ⟨d2, g1, g2, g3⟩ := ih (processTask env false st t)
    refine ⟨d1 ++ d2, ?_, ?_, ?_⟩
    · simp [runTasks, g1, h1]
    · simp [List.countP_append, h2, g2]
    · simp [runTasks, g3, h3, List.countP_append]
      omega

theorem sum_one_add (f : α → Nat) (l : List α) :
    (l.map fun t => 1 + f t).sum = l.length + (l.map f).sum := by
  induction l with
  | nil => simp
  | cons a l ih => simp [ih]; omega

theorem runTasks_dry (env : TrackerEnv) (ts : List TopTask) : ∀ st : RunState,
    runTasks env true ts st =
      { st with trace := st.trace ++ ts.flatMap fun t => Event.preview t.title ::
          (pySorted taskKey (t.children.getD [])).map fun c => Event.preview c.title } := by
  induction ts with
  | nil => intro st; simp [runTasks]
  | cons t ts ih =>
    intro st
    simp [runTasks, processTask_dry, ih]

/-! ## String disequalities: the generated parent back-reference line can
never coincide with a generated category, blank, or priority line. -/

theorem parentLine_ne_categoryLine (a cat : String) :
    "**Parent Issue:** #" ++ a ≠ "**Category:** " ++ cat := by
  intro h
  have h2 : ("**Parent Issue:** #" ++ a).data = ("**Category:** " ++ cat).data :=
    congrArg String.data h
  rw [String.data_append, String.data_append] at h2
  rw [show ("**Parent Issue:** #").data =
        ['*','*','P','a','r','e','n','t',' ','I','s','s','u','e',':','*','*',' ','#']
        by decide,
      show ("**Category:** ").data =
        ['*','*','C','a','t','e','g','o','r','y',':','*','*',' '] by decide] at h2
  simp at h2

theorem parentLine_ne_priorityLine (a b : String) :
    "**Parent Issue:** #" ++ a ≠ "**Priority:** " ++ b := by
  intro h
  have h2 : ("**Parent Issue:** #" ++ a).data = ("**Priority:** " ++ b).data :=
    congrArg String.data h
  rw [String.data_append, String.data_append] at h2
  rw [show ("**Parent Issue:** #").data =
        ['*','*','P','a','r','e','n','t',' ','I','s','s','u','e',':','*','*',' ','#']
        by decide,
      show ("**Priority:** ").data =
        ['*','*','P','r','i','o','r','i','t','y',':','*','*',' '] by decide] at h2
  simp at h2

theorem parentLine_ne_empty (s : String) : "**Parent Issue:** #" ++ s ≠ "" := by
  intro h
  have h2 := congrArg String.data h
  rw [String.data_append] at h2
  simp at h2

/-- Normal form of `description_lines`: the `if task.get("description")`
guard is redundant (appending an empty list is a no-op), so the lines are
always the category header, a blank line, the description lines, then the
optional priority block and the optional parent block. -/
theorem buildBodyLines_eq (t : TaskData) (pn : Option Nat) :
    buildBodyLines t pn =
      ["**Category:** " ++ t.category, ""] ++ t.description ++
      (match t.priority with
        | some p => ["", "**Priority:** " ++ toString p]
        | none => []) ++
      (match pn with
        | some n => ["", "**Parent Issue:** #" ++ toString n]
        | none => []) := by
  unfold buildBodyLines
  by_cases hdesc : t.description = [] <;>
    cases t.priority <;> cases pn <;> simp [hdesc]

/-- A body built with no parent issue contains no generated parent
back-reference line, provided the task's own description lines do not
themselves spell one out. -/
theorem buildBodyLines_none_no_parentLine (t : TaskData)
    (hd : ∀ s : String, "**Parent Issue:** #" ++ s ∉ t.description) :
    ∀ s : String, "**Parent Issue:** #" ++ s ∉ buildBodyLines t none := by
  intro s hmem
  rw [buildBodyLines_eq] at hmem
  simp only [List.append_nil, List.mem_append, List.mem_cons,
    List.not_mem_nil, or_false] at hmem
  rcases hmem with ((h | h) | h) | h
  · exact parentLine_ne_categoryLine s t.category h
  · exact parentLine_ne_empty s h
  · exact hd s h
  · cases hp : t.priority with
    | some p =>
      rw [hp] at h
      simp only [List.mem_cons, List.not_mem_nil, or_false] at h
      rcases h with h | h
      · exact parentLine_ne_empty s h
      · exact parentLine_ne_priorityLine s (toString p) h
    | none =>
      rw [hp] at h
      simp at h

/-! ## Witness fixtures (the concrete scenario of spec §8) -/

/-- A tracker holding labels `bug`, `feature`, `enhancement`, creating issue
`#100 + k` on the k-th `create_issue` call, and accepting all updates. -/
def envW : TrackerEnv :=
  ⟨["bug", "feature", "enhancement"], fun i => some (100 + i), fun _ => true⟩

/-- A tracker missing the `enhancement` label. -/
def envMissingW : TrackerEnv :=
  ⟨["bug", "feature"], fun i => some (100 + i), fun _ => true⟩

/-- The child task of the spec §8 scenario. -/
def subTaskW : TaskData := ⟨"Sub 1", "Testing", ["d"], ["enhancement"], some 1⟩

/-- The top-level task of the spec §8 scenario. -/
def topTaskW : TopTask := ⟨⟨"Task 1", "Testing", ["d"], ["bug", "feature"], some 1⟩, some [subTaskW]⟩

/-- The Task Document of the spec §8 scenario. -/
def docW : TaskDoc := ⟨"Test Release", [topTaskW]⟩

/-- A tracker that fails the first `create_issue` call (after the client's
internal retries) and creates issue `#200 + k` on every later call. -/
def envFailW : TrackerEnv :=
  ⟨["bug", "feature", "enhancement"],
    fun i => if i = 0 then none else some (200 + i), fun _ => true⟩

/-! ## Claim theorems -/

/-- C9: for every issue-creation run, if the input document source is missing
or its contents are malformed (loading yields no document), the run fails
with the document error before any tracker call is made (the trace is
empty). -/
theorem claim9_documentError (env : TrackerEnv) (repo : String) (dryRun : Bool) :
    runCreateIssues env repo none dryRun = ⟨[], .error .documentError⟩ := rfl

/-- C1: in non-dry-run issue-creation mode, if some tag across the document's
tasks and child tasks is not among the tracker's label names, the run fails
with the validation error before any `create_issue` call, and the error
carries every missing tag together with the link to the tracker's
label-management page for the target repository. -/
theorem claim1_missingTagsFailFast (env : TrackerEnv) (repo : String) (doc : TaskDoc)
    (h : missingLabels env doc ≠ []) :
    runCreateIssues env repo (some doc) false =
      ⟨[.clientInit, .listLabels],
        .error (.validationError (missingLabels env doc) (labelManagementUrl repo))⟩ ∧
    countCreate (runCreateIssues env repo (some doc) false).trace = 0 ∧
    ∀ s ∈ collectAllTags doc, s ∉ env.labelNames → s ∈ missingLabels env doc := by
  have hrun : runCreateIssues env repo (some doc) false =
      ⟨[.clientInit, .listLabels],
        .error (.validationError (missingLabels env doc) (labelManagementUrl repo))⟩ := by
    simp [runCreateIssues, h]
  refine ⟨hrun, ?_, ?_⟩
  · rw [hrun]
    rfl
  · intro s hs hn
    simp [missingLabels, List.mem_filter, hs, hn]

/-- Witness for C1 at the spec §8 scenario with the `enhancement` label
absent from the tracker. -/
theorem claim1_witness :
    runCreateIssues envMissingW "test/repo" (some docW) false =
      ⟨[Event.clientInit, Event.listLabels],
        .error (.validationError (missingLabels envMissingW docW)
          (labelManagementUrl "test/repo"))⟩ ∧
    missingLabels envMissingW docW = ["enhancement"] ∧
    labelManagementUrl "test/repo" = "https://github.com/test/repo/labels" := by
  have h := claim1_missingTagsFailFast envMissingW "test/repo" docW (by decide)
  exact ⟨h.1, by decide, rfl⟩

/-- C3: a dry run creates zero issues and makes zero tracker calls (the
tracker client is not even constructed), terminates successfully with count
0, and prints a preview of every task and child task. -/
theorem claim3_dryRunNoTrackerCalls (env : TrackerEnv) (repo : String) (doc : TaskDoc) :
    (runCreateIssues env repo (some doc) true).outcome = Except.ok 0 ∧
    (runCreateIssues env repo (some doc) true).trace.countP Event.isTrackerCall = 0 ∧
    Event.clientInit ∉ (runCreateIssues env repo (some doc) true).trace ∧
    (∀ e ∈ (runCreateIssues env repo (some doc) true).trace, e.isPreview = true) ∧
    ∀ t ∈ doc.tasks,
      Event.preview t.title ∈ (runCreateIssues env repo (some doc) true).trace ∧
      ∀ c ∈ t.children.getD [],
        Event.preview c.title ∈ (runCreateIssues env repo (some doc) true).trace := by
  have hst := runTasks_dry env (pySorted topKey doc.tasks) ⟨0, 0, 0, []⟩
  have hres : runCreateIssues env repo (some doc) true =
      ⟨(pySorted topKey doc.tasks).flatMap (fun t => Event.preview t.title ::
          (pySorted taskKey (t.children.getD [])).map fun c => Event.preview c.title),
        .ok 0⟩ := by
    simp [runCreateIssues, hst]
  rw [hres]
  have hprev : ∀ e ∈ (pySorted topKey doc.tasks).flatMap (fun t => Event.preview t.title ::
      (pySorted taskKey (t.children.getD [])).map fun c => Event.preview c.title),
      ∃ s, e = Event.preview s := by
    intro e he
    rw [List.mem_flatMap] at he
    obtain ⟨t, _, he⟩ := he
    rcases List.mem_cons.mp he with rfl | he
    · exact ⟨_, rfl⟩
    · rw [List.mem_map] at he
      obtain ⟨c, _, rfl⟩ := he
      exact ⟨_, rfl⟩
  refine ⟨rfl, ?_, ?_, ?_, ?_⟩
  · rw [List.countP_eq_zero]
    intro e he
    obtain ⟨s, rfl⟩ := hprev e he
    simp [Event.isTrackerCall]
  · intro hmem
    obtain ⟨s, hs⟩ := hprev _ hmem
    exact Event.noConfusion hs
  · intro e he
    obtain ⟨s, rfl⟩ := hprev e he
    rfl
  · intro t ht
    have ht' : t ∈ pySorted topKey doc.tasks := (mem_pySorted topKey doc.tasks t).mpr ht
    constructor
    · exact List.mem_flatMap.mpr ⟨t, ht', List.mem_cons_self _ _⟩
    · intro c hc
      have hc' : c ∈ pySorted taskKey (t.children.getD []) :=
        (mem_pySorted taskKey _ c).mpr hc
      exact List.mem_flatMap.mpr
        ⟨t, ht', List.mem_cons_of_mem _ (List.mem_map.mpr ⟨c, hc', rfl⟩)⟩

/-- Witness for C3 at the spec §8 scenario. -/
theorem claim3_witness :
    (runCreateIssues envW "test/repo" (some docW) true).outcome = Except.ok 0 ∧
    Event.preview "Task 1" ∈ (runCreateIssues envW "test/repo" (some docW) true).trace ∧
    Event.preview "Sub 1" ∈ (runCreateIssues envW "test/repo" (some docW) true).trace := by
  have h := claim3_dryRunNoTrackerCalls envW "test/repo" docW
  have ht := h.2.2.2.2 topTaskW (by simp [docW])
  exact ⟨h.1, ht.1, ht.2 subTaskW (by simp [topTaskW, subTaskW])⟩

/-- C4: both `sorted(...)` calls of the orchestrator — over top-level tasks
and over the children of one parent — are a stable ascending sort by
priority (`x.get("priority", 999)`): the sorted list is a permutation of the
input, its keys are pairwise non-decreasing (so a strictly smaller priority
is processed, and its issue created, strictly earlier), and the elements
sharing any one key keep their original document order. -/
theorem claim4_stableSortByPriority (ts : List TopTask) (cs : List TaskData) :
    ((pySorted topKey ts).Perm ts ∧
      (pySorted topKey ts).Pairwise (fun a b => topKey a ≤ topKey b) ∧
      ∀ v : Int, (pySorted topKey ts).filter (fun a => decide (topKey a = v)) =
        ts.filter (fun a => decide (topKey a = v))) ∧
    ((pySorted taskKey cs).Perm cs ∧
      (pySorted taskKey cs).Pairwise (fun a b => taskKey a ≤ taskKey b) ∧
      ∀ v : Int, (pySorted taskKey cs).filter (fun a => decide (taskKey a = v)) =
        cs.filter (fun a => decide (taskKey a = v))) :=
  ⟨⟨pySorted_perm _ _, pySorted_pairwise _ _, fun v => pySorted_filter_key _ _ v⟩,
    pySorted_perm _ _, pySorted_pairwise _ _, fun v => pySorted_filter_key _ _ v⟩

theorem isCreate_of_isCreateSuccess (e : Event) (h : e.isCreateSuccess = true) :
    e.isCreate = true := by
  cases e <;> simp_all [Event.isCreateSuccess, Event.isCreate]

/-- C6: in a non-dry-run run that passes validation, the outcome is always a
success whose reported count is exactly the number of `create_issue` calls
that succeeded; every task and child task gets exactly one `create_issue`
call (failures never abort the loop), and the reported count is at most the
total task count. -/
theorem claim6_perIssueFailureIsolation (env : TrackerEnv) (repo : String)
    (doc : TaskDoc) (h : missingLabels env doc = []) :
    (runCreateIssues env repo (some doc) false).outcome =
      Except.ok (countCreateSuccess (runCreateIssues env repo (some doc) false).trace) ∧
    countCreate (runCreateIssues env repo (some doc) false).trace = taskCount doc ∧
    countCreateSuccess (runCreateIssues env repo (some doc) false).trace ≤
      taskCount doc := by
  obtain ⟨d, h1, h2, h3⟩ := runTasks_counts env (pySorted topKey doc.tasks)
    ⟨0, 0, 0, [Event.clientInit, Event.listLabels]⟩
  have hres : runCreateIssues env repo (some doc) false =
      ⟨(runTasks env false (pySorted topKey doc.tasks)
          ⟨0, 0, 0, [Event.clientInit, Event.listLabels]⟩).trace,
        .ok (runTasks env false (pySorted topKey doc.tasks)
          ⟨0, 0, 0, [Event.clientInit, Event.listLabels]⟩).total⟩ := by
    simp [runCreateIssues, h]
  have hsum : ((pySorted topKey doc.tasks).map
        fun t => 1 + (t.children.getD []).length).sum = taskCount doc := by
    rw [((pySorted_perm topKey doc.tasks).map
      fun t => 1 + (t.children.getD []).length).sum_eq]
    rw [sum_one_add]
    rfl
  have htr : countCreate (runCreateIssues env repo (some doc) false).trace =
      taskCount doc := by
    rw [hres]
    simp only [countCreate, h1, List.countP_append]
    rw [h2, hsum]
    simp [Event.isCreate]
  have hsucc : countCreateSuccess (runCreateIssues env repo (some doc) false).trace =
      d.countP Event.isCreateSuccess := by
    rw [hres]
    simp only [countCreateSuccess, h1, List.countP_append]
    simp [Event.isCreateSuccess]
  refine ⟨?_, htr, ?_⟩
  · rw [hsucc, hres]
    simp only [h3]
    simp
  · rw [hsucc, ← htr, hres]
    simp only [countCreate, h1, List.countP_append]
    have hmono : d.countP Event.isCreateSuccess ≤ d.countP Event.isCreate :=
      List.countP_mono_left fun e _ => isCreate_of_isCreateSuccess e
    omega

/-- Witness for C6: the spec §8 scenario run against a tracker whose first
`create_issue` call fails — the run still succeeds, reporting 1 of the 2
tasks created. -/
theorem claim6_witness :
    (runCreateIssues envFailW "test/repo" (some docW) false).outcome =
      Except.ok
        (countCreateSuccess (runCreateIssues envFailW "test/repo" (some docW) false).trace) ∧
    countCreate (runCreateIssues envFailW "test/repo" (some docW) false).trace =
      taskCount docW ∧
    countCreateSuccess (runCreateIssues envFailW "test/repo" (some docW) false).trace = 1 ∧
    taskCount docW = 2 := by
  have h := claim6_perIssueFailureIsolation envFailW "test/repo" docW (by decide)
  exact ⟨h.1, h.2.1, by decide, by decide⟩

/-- C7: for a parent task whose issue was created (number `n`) and which has
at least one successfully created child, the loop iteration for that parent
issues exactly one `update_issue` call, for issue `n`, whose body is the
parent's body extended by the sub-task checklist; the checklist has exactly
one line per successfully created child, each of the form
`- [ ] #<child number> <child title>` for a `create_issue` call of the same
iteration that really returned that number.  The resulting created-count is
independent of whether the update call succeeds (its failure is only
logged). -/
theorem claim7_parentChecklistPatch (env : TrackerEnv) (st : RunState) (t : TopTask)
    (cs : List TaskData) (n : Nat)
    (hch : t.children = some cs)
    (hpc : env.createResult st.createIdx = some n)
    (hN : 1 ≤ childSuccessCount env (st.createIdx + 1) (pySorted taskKey cs)) :
    ∃ d : List Event,
      (processTask env false st t).trace = st.trace ++ d ∧
      d.countP Event.isUpdate = 1 ∧
      Event.updateIssue n
          (buildBody t.toTaskData none ++ "\n\n**Sub-tasks:**\n" ++
            String.intercalate "\n"
              (childLines env (st.createIdx + 1) (pySorted taskKey cs)))
          (env.updateOk st.updateIdx) ∈ d ∧
      (childLines env (st.createIdx + 1) (pySorted taskKey cs)).length =
        childSuccessCount env (st.createIdx + 1) (pySorted taskKey cs) ∧
      (∀ l ∈ childLines env (st.createIdx + 1) (pySorted taskKey cs), ∃ c m,
        Event.createIssue c.title (buildBody c (some n)) c.tags (some m) ∈ d ∧
        l = "- [ ] #" ++ toString m ++ " " ++ c.title) ∧
      (processTask env false st t).total =
        st.total + 1 + childSuccessCount env (st.createIdx + 1) (pySorted taskKey cs) := by
  cases hcl : childLines env (st.createIdx + 1) (pySorted taskKey cs) with
  | nil =>
    exfalso
    have hlen := childLines_length env (pySorted taskKey cs) (st.createIdx + 1)
    rw [hcl] at hlen
    simp only [List.length_nil] at hlen
    omega
  | cons l ls =>
    have hpt : processTask env false st t =
        ⟨st.createIdx + 1 + (pySorted taskKey cs).length, st.updateIdx + 1,
          st.total + 1 + childSuccessCount env (st.createIdx + 1) (pySorted taskKey cs),
          (st.trace ++
            Event.createIssue t.title (buildBody t.toTaskData none) t.tags (some n) ::
              childEvents env (some n) (st.createIdx + 1) (pySorted taskKey cs)) ++
          [Event.updateIssue n (buildBody t.toTaskData none ++ "\n\n**Sub-tasks:**\n" ++
            String.intercalate "\n" (l :: ls)) (env.updateOk st.updateIdx)]⟩ := by
      simp [processTask, createIssueFromTask, hch, hpc, processChildren_spec, hcl]
    refine ⟨Event.createIssue t.title (buildBody t.toTaskData none) t.tags (some n) ::
        childEvents env (some n) (st.createIdx + 1) (pySorted taskKey cs) ++
        [Event.updateIssue n (buildBody t.toTaskData none ++ "\n\n**Sub-tasks:**\n" ++
          String.intercalate "\n" (l :: ls)) (env.updateOk st.updateIdx)],
      ?_, ?_, ?_, ?_, ?_, ?_⟩
    · rw [hpt]
      simp
    · simp [List.countP_cons, List.countP_append, countUpdate_childEvents,
        Event.isUpdate]
    · simp
    · rw [← hcl, childLines_length]
    · intro l' hl'
      obtain ⟨c, m, hmem, rfl⟩ :=
        childLines_mem env (some n) (pySorted taskKey cs) (st.createIdx + 1) l'
          (by rw [hcl]; exact hl')
      exact ⟨c, m, by simp [hmem], rfl⟩
    · rw [hpt]

/-- Witness for C7 at the spec §8 scenario: parent `#100`, one child `#101`,
one checklist line, one update call for issue `#100`. -/
theorem claim7_witness :
    (processTask envW false ⟨0, 0, 0, []⟩ topTaskW).total = 2 ∧
    childLines envW 1 (pySorted taskKey [subTaskW]) = ["- [ ] #101 Sub 1"] ∧
    Event.updateIssue 100
        (buildBody topTaskW.toTaskData none ++ "\n\n**Sub-tasks:**\n" ++
          String.intercalate "\n" (childLines envW 1 (pySorted taskKey [subTaskW])))
        (envW.updateOk 0) ∈ (processTask envW false ⟨0, 0, 0, []⟩ topTaskW).trace := by
  obtain ⟨d, h1, h2, h3, h4, h5, h6⟩ :=
    claim7_parentChecklistPatch envW ⟨0, 0, 0, []⟩ topTaskW [subTaskW] 100
      rfl rfl (by decide)
  refine ⟨?_, by decide, ?_⟩
  · rw [h6]
    decide
  · rw [h1]
    simpa using h3

theorem childEvents_mem (env : TrackerEnv) (pn : Option Nat) (cs : List TaskData) :
    ∀ idx, ∀ e ∈ childEvents env pn idx cs, ∃ c j, c ∈ cs ∧
      e = Event.createIssue c.title (buildBody c pn) c.tags (env.createResult j) := by
  induction cs with
  | nil => intro idx e he; simp [childEvents] at he
  | cons c cs ih =>
    intro idx e he
    rw [childEvents] at he
    rcases List.mem_cons.mp he with rfl | he
    · exact ⟨c, idx, List.mem_cons_self c cs, rfl⟩
    · obtain ⟨c', j, hc', rfl⟩ := ih (idx + 1) e he
      exact ⟨c', j, List.mem_cons_of_mem c hc', rfl⟩

/-- C10: when a parent task's own `create_issue` call fails, its children are
still processed — one `create_issue` call per child, in priority order, each
with a body built with no parent back-reference (and, as long as the child's
own description does not spell one out, containing no parent back-reference
line at all) — the created-count still counts the successful children, and
the parent-body patch step is skipped (no `update_issue` call, update index
unchanged). -/
theorem claim10_parentFailureChildrenContinue (env : TrackerEnv) (st : RunState)
    (t : TopTask) (cs : List TaskData)
    (hch : t.children = some cs)
    (hpc : env.createResult st.createIdx = none) :
    processTask env false st t =
      ⟨st.createIdx + 1 + cs.length, st.updateIdx,
        st.total + childSuccessCount env (st.createIdx + 1) (pySorted taskKey cs),
        st.trace ++
          Event.createIssue t.title (buildBody t.toTaskData none) t.tags none ::
            childEvents env none (st.createIdx + 1) (pySorted taskKey cs)⟩ ∧
    (childEvents env none (st.createIdx + 1) (pySorted taskKey cs)).countP
      Event.isCreate = cs.length ∧
    (childEvents env none (st.createIdx + 1) (pySorted taskKey cs)).countP
      Event.isUpdate = 0 ∧
    ∀ e ∈ childEvents env none (st.createIdx + 1) (pySorted taskKey cs), ∃ c j,
      c ∈ cs ∧
      e = Event.createIssue c.title (buildBody c none) c.tags (env.createResult j) ∧
      ((∀ s : String, "**Parent Issue:** #" ++ s ∉ c.description) →
        ∀ s : String, "**Parent Issue:** #" ++ s ∉ buildBodyLines c none) := by
  have hlen : (pySorted taskKey cs).length = cs.length :=
    (pySorted_perm taskKey cs).length_eq
  refine ⟨?_, ?_, countUpdate_childEvents env none (pySorted taskKey cs) _, ?_⟩
  · simp [processTask, createIssueFromTask, hch, hpc, processChildren_spec]
    omega
  · rw [countCreate_childEvents, hlen]
  · intro e he
    obtain ⟨c, j, hc, rfl⟩ :=
      childEvents_mem env none (pySorted taskKey cs) (st.createIdx + 1) e he
    exact ⟨c, j, (mem_pySorted taskKey cs c).mp hc, rfl,
      fun hd => buildBodyLines_none_no_parentLine c hd⟩

/-- Witness for C10: with the first `create_issue` call failing, the child of
the spec §8 scenario is still created as `#201` with no parent
back-reference, no update call happens, and the count reports the child. -/
theorem claim10_witness :
    processTask envFailW false ⟨0, 0, 0, []⟩ topTaskW =
      ⟨2, 0, 1,
        [Event.createIssue "Task 1" (buildBody topTaskW.toTaskData none)
            ["bug", "feature"] none,
          Event.createIssue "Sub 1" (buildBody subTaskW none)
            ["enhancement"] (some 201)]⟩ := by
  have h := claim10_parentFailureChildrenContinue envFailW ⟨0, 0, 0, []⟩
    topTaskW [subTaskW] rfl rfl
  rw [h.1]
  rfl

/-! ## Retry-loop claims -/

/-- An attempt oracle whose first attempt returns HTTP 500 and whose later
attempts succeed with payload 77. -/
def http500ThenOkW : Nat → AttemptResult :=
  fun i => if i = 0 then .status 500 none 0 else .status 200 none 77

/-- Counterexample to C2 as stated: with the default retry parameters, a
request whose first attempt receives HTTP 500 is NOT surfaced as a failure on
that attempt — the loop sleeps once (1 time unit) and the second attempt's
success is returned to the caller.  `raise_for_status`'s `HTTPError` is a
`RequestException`, so the generic handler retries it. -/
theorem claim2_counterexample :
    makeRequest http500ThenOkW 3 1 = ([1], Except.ok 77) ∧
    makeRequest http500ThenOkW 3 1 ≠ ([], Except.error (ReqError.httpError 500)) := by
  refine ⟨rfl, ?_⟩
  intro h
  rw [show makeRequest http500ThenOkW 3 1 = ([1], Except.ok 77) from rfl] at h
  simp at h

/-- C2 amended: an HTTP error status other than 429 received on every attempt
is retried with exponential backoff `base_delay * 2 ^ attempt` like a
connection-level failure, and the error is surfaced only after the final
(4th) attempt. -/
theorem claim2_amended_httpErrorsRetried (c p d : Nat) (h4 : 400 ≤ c)
    (h429 : c ≠ 429) :
    makeRequest (fun _ => .status c none p) 3 d =
      ([d * 2 ^ 0, d * 2 ^ 1, d * 2 ^ 2], Except.error (ReqError.httpError c)) := by
  have h200 : c ≠ 200 := by omega
  have h201 : c ≠ 201 := by omega
  simp [makeRequest, makeRequestLoop, h429, h200, h201, h4]

/-- Witness for the amended C2 at status 500. -/
theorem claim2_amended_witness :
    makeRequest (fun _ => .status 500 none 7) 3 1 =
      ([1 * 2 ^ 0, 1 * 2 ^ 1, 1 * 2 ^ 2], Except.error (ReqError.httpError 500)) :=
  claim2_amended_httpErrorsRetried 500 7 1 (by decide) (by decide)

/-- C5: (a) a call rate-limited on its first `k ≤ 3` attempts and succeeding
on the next sleeps, for each rate-limited attempt `i`, the server's
`Retry-After` value when present and `base_delay * 2 ^ i` otherwise, and
returns the success payload to the caller; (b) a call rate-limited on every
attempt performs 3 sleeps (4 attempts) and then surfaces a definitive
failure. -/
theorem claim5_rateLimitRetry (ra : Nat → Option Nat) (p d k : Nat) (hk : k ≤ 3) :
    makeRequest (fun i => if i < k then .status 429 (ra i) 0 else .status 200 none p)
        3 d =
      ((List.range k).map fun i => (ra i).getD (d * 2 ^ i), Except.ok p) ∧
    makeRequest (fun i => .status 429 (ra i) 0) 3 d =
      ([(ra 0).getD (d * 2 ^ 0), (ra 1).getD (d * 2 ^ 1), (ra 2).getD (d * 2 ^ 2)],
        Except.error (ReqError.httpError 429)) := by
  constructor
  · interval_cases k <;> simp [makeRequest, makeRequestLoop, List.range_succ]
  · simp [makeRequest, makeRequestLoop]

/-- Witness for C5: two rate-limited attempts (the first with `Retry-After: 5`,
the second without a header), then success with payload 42. -/
theorem claim5_witness :
    makeRequest
        (fun i => if i < 2
          then .status 429 ((fun j => if j = 0 then some 5 else none) i) 0
          else .status 200 none 42) 3 1 =
      ((List.range 2).map fun i =>
        (((fun j => if j = 0 then some 5 else none) i).getD (1 * 2 ^ i)),
        Except.ok 42) ∧
    ((List.range 2).map fun i =>
        (((fun j => if j = 0 then some 5 else none) i : Option Nat).getD (1 * 2 ^ i))) =
      [5, 2] :=
  ⟨(claim5_rateLimitRetry (fun j => if j = 0 then some 5 else none) 42 1 2
      (by decide)).1, by decide⟩

/-- Counterexample to C8 as stated: for a concrete top-level task (category
`Testing`, description `["d"]`, priority 1) the issue body is NOT just the
category line, a blank line and the description lines — the code appends a
blank line and a priority line as well. -/
theorem claim8_counterexample :
    buildBody ⟨"Task 1", "Testing", ["d"], ["bug"], some 1⟩ none ≠
      String.intercalate "\n" (["**Category:** Testing", ""] ++ ["d"]) ∧
    buildBody ⟨"Task 1", "Testing", ["d"], ["bug"], some 1⟩ none =
      "**Category:** Testing\n\nd\n\n**Priority:** 1" := by
  constructor
  · decide
  · rfl

/-- C8 amended: for a task carrying a priority, a top-level issue body's
lines are the category line, a blank line, the description lines, then a
blank line and the priority line; a child issue body additionally ends with
a blank line and the back-reference line `**Parent Issue:** #<parent
number>` (the code writes the markdown-bold label, not the bare text
`Parent Issue: #n`).  And the `create_issue` call for a task always sends
exactly that body, whether or not the call succeeds. -/
theorem claim8_amended_bodyFormat (title cat : String) (descr tags : List String)
    (p : Int) (n : Nat) (b : String) (env : TrackerEnv) (st : RunState) :
    buildBodyLines ⟨title, cat, descr, tags, some p⟩ none =
      ["**Category:** " ++ cat, ""] ++ descr ++
        ["", "**Priority:** " ++ toString p] ∧
    buildBodyLines ⟨title, cat, descr, tags, some p⟩ (some n) =
      ["**Category:** " ++ cat, ""] ++ descr ++
        ["", "**Priority:** " ++ toString p] ++
        ["", "**Parent Issue:** #" ++ toString n] ∧
    (createIssueFromTask env st ⟨title, cat, descr, tags, some p⟩
        (some ⟨n, b⟩) false).1.trace =
      st.trace ++ [Event.createIssue title
        (buildBody ⟨title, cat, descr, tags, some p⟩ (some n)) tags
        (env.createResult st.createIdx)] := by
  refine ⟨?_, ?_, ?_⟩
  · simp [buildBodyLines_eq]
  · simp [buildBodyLines_eq]
  · cases h : env.createResult st.createIdx <;> simp [createIssueFromTask, h]

end RelProcOTron
